import Mathlib

/-!
Verification of the reconciliation and lifecycle engine of the spiceai
runtime (`crates/runtime/src/lib.rs`), as a shallow embedding.

Stateful Rust code is embedded as pure Lean functions that return an
explicit trace of the observable events performed (status-registry
writes, metric signals, query-engine calls, log lines, retry sleeps)
together with the resulting value or state.  Outcomes of calls into
external collaborators (the connector registry, the query engine, model
materialization) are supplied as explicit parameters, one set per retry
attempt where the source retries.
-/

deriving instance DecidableEq for Except

namespace SpiceRuntime

/-- Lifecycle state in the status registry.  Modelled from the spec
(`status` module is not part of the embedded source): enum
{Initializing, Ready, Error, Refreshing, Disabled}. -/
inductive ComponentStatus
  | Initializing
  | Ready
  | Error
  | Refreshing
  | Disabled
deriving DecidableEq, Repr

/-- Acceleration settings of a dataset. Modelled from the spec
(the `spicepod` crate is not part of the embedded source):
`{enabled: bool, engine: string}`. -/
structure Acceleration where
  enabled : Bool
  engine : String
deriving DecidableEq, Repr

/-- Replication settings of a dataset. Modelled from the spec:
`{enabled: bool}`. -/
structure Replication where
  enabled : Bool
deriving DecidableEq, Repr

/-- Dataset read mode. Modelled from the spec: {read-only | read-write}. -/
inductive Mode
  | Read
  | ReadWrite
deriving DecidableEq, Repr

/-- Dataset spec.  Modelled from the spec (the `spicepod` crate is not
part of the embedded source): name, source identifier, opaque parameter
mapping, optional acceleration, optional replication, read mode,
optional view-defining query text.  `sqlMalformed` models the failure
case of the source's fallible `view_sql()` accessor (a malformed view
query). -/
structure Dataset where
  name : String
  source : String
  params : List (String × String)
  acceleration : Option Acceleration
  replication : Option Replication
  mode : Mode
  sql : Option String
  sqlMalformed : Bool
deriving DecidableEq, Repr

/-- `Dataset::is_view()`: the dataset declares a view query.  Modelled
from the spec (accessor lives in the `spicepod` crate). -/
def Dataset.is_view (ds : Dataset) : Bool :=
  ds.sql.isSome

/-- `Dataset::view_sql()`: returns the declared view query, failing when
the query text is malformed.  Modelled from the spec (accessor lives in
the `spicepod` crate); the runtime maps its failure to `InvalidSQLView`. -/
def Dataset.view_sql (ds : Dataset) : Except Unit (Option String) :=
  if ds.sqlMalformed then Except.error () else Except.ok ds.sql

/-- Model spec.  Modelled from the spec: name (unique key), source URI
("from"), opaque parameter mapping. -/
structure SpicepodModel where
  name : String
  fromUri : String
  params : List (String × String)
deriving DecidableEq, Repr

/-- A connector capability handle, reduced to the two optional
sub-capabilities the runtime queries: whether it can itself serve as a
table source (`has_table_provider`) and whether it offers a write
publisher (`get_data_publisher` returning `Some`). -/
structure Connector where
  hasTableProvider : Bool
  hasDataPublisher : Bool
deriving DecidableEq, Repr

/-- Outcome of `dataconnector::create_new_connector(source, secret, params)`:
`Option<Result<Connector, Err>>` where the outer `None` means the source
identifier is unknown to the connector registry. -/
inductive CreateOutcome
  | unknownSource
  | initFailed
  | created (c : Connector)
deriving DecidableEq, Repr

/-- The two failure variants of `Runtime::get_dataconnector_from_source`:
`UnknownDataConnector` (registry returned `None`) and
`UnableToInitializeDataConnector` (registry returned `Some(Err(..))`). -/
inductive ResolveErr
  | unknownDataConnector
  | unableToInitializeDataConnector
deriving DecidableEq, Repr

/-- `Runtime::get_dataconnector_from_source`: the literal source
`"localhost"` yields an explicit absence (`Ok(None)`); any other source
is looked up in the connector registry, mapping the registry's outer
`None` to `UnknownDataConnector` and an inner `Err` to
`UnableToInitializeDataConnector`. -/
def get_dataconnector_from_source (source : String) (create : CreateOutcome) :
    Except ResolveErr (Option Connector) :=
  if source = "localhost" then
    Except.ok none
  else
    match create with
    | CreateOutcome.created c => Except.ok (some c)
    | CreateOutcome.initFailed => Except.error ResolveErr.unableToInitializeDataConnector
    | CreateOutcome.unknownSource => Except.error ResolveErr.unknownDataConnector

/-- `verify_dependent_tables`: non-view datasets trivially pass; for a
view, the query engine is asked for the tables the view references
(`depLookup` is that call's outcome) and verification fails if the
lookup errors or any referenced table is absent from `existing_tables`. -/
def verify_dependent_tables (ds : Dataset) (existing_tables : List String)
    (depLookup : Except Unit (List String)) : Bool :=
  if !ds.is_view then
    true
  else
    match depLookup with
    | Except.error _ => false
    | Except.ok tables => tables.all (fun tbl => existing_tables.contains tbl)

/-- `has_table_provider`: the connector is present and itself offers a
table provider. -/
def has_table_provider (data_connector : Option Connector) : Bool :=
  data_connector.isSome && data_connector.any (fun dc => dc.hasTableProvider)

/-- Query-engine calls made by `Runtime::initialize_dataconnector`. -/
inductive EngineCall
  | attachView
  | attachMesh
  | newAcceleratedBackend
  | attachPublisher
  | attachReplicationPublisher
  | attachConnectorToPublisher
deriving DecidableEq, Repr

/-- Failure variants surfaced by `Runtime::initialize_dataconnector`. -/
inductive InitErr
  | invalidSQLView
  | unableToAttachView
  | unableToCreateBackend
  | unableToAttachDataConnector
deriving DecidableEq, Repr

/-- Success/failure of each query-engine call, should it be made, within
one `initialize_dataconnector` invocation. -/
structure DfEnv where
  attachViewOk : Bool
  attachMeshOk : Bool
  newBackendOk : Bool
  attachPublisherOk : Bool
  attachReplicationPublisherOk : Bool
  attachConnectorToPublisherOk : Bool
deriving DecidableEq, Repr

/-- `Runtime::initialize_dataconnector` (the attachment strategist):
view attach is exclusive and first; otherwise mesh attach when
acceleration is absent/disabled and a connector is present; otherwise
accelerated backend creation, optional backend publisher, optional
replication publisher, and connector wiring.  Returns the ordered list
of query-engine calls made together with the result; any failing call
aborts the remainder. -/
def initialize_dataconnector (data_connector : Option Connector) (ds : Dataset)
    (env : DfEnv) : List EngineCall × Except InitErr Unit :=
  match ds.view_sql with
  | Except.error _ => ([], Except.error InitErr.invalidSQLView)
  | Except.ok view_sql =>
    let data_backend_publishing_enabled :=
      ds.mode == Mode.ReadWrite || data_connector.isNone
    if view_sql.isSome then
      if env.attachViewOk then
        ([EngineCall.attachView], Except.ok ())
      else
        ([EngineCall.attachView], Except.error InitErr.unableToAttachView)
    else if (ds.acceleration.isNone
              || ds.acceleration.any (fun acc => !acc.enabled))
            && data_connector.isSome then
      if env.attachMeshOk then
        ([EngineCall.attachMesh], Except.ok ())
      else
        ([EngineCall.attachMesh], Except.error InitErr.unableToAttachDataConnector)
    else if !env.newBackendOk then
      ([EngineCall.newAcceleratedBackend], Except.error InitErr.unableToCreateBackend)
    else
      let calls0 := [EngineCall.newAcceleratedBackend]
      if data_backend_publishing_enabled && !env.attachPublisherOk then
        (calls0 ++ [EngineCall.attachPublisher],
         Except.error InitErr.unableToAttachDataConnector)
      else
        let calls1 :=
          if data_backend_publishing_enabled then
            calls0 ++ [EngineCall.attachPublisher]
          else calls0
        match data_connector with
        | none => (calls1, Except.ok ())
        | some dc =>
          let replicate := ds.replication.any (fun r => r.enabled)
          if replicate && ds.mode == Mode.ReadWrite && dc.hasDataPublisher then
            if !env.attachReplicationPublisherOk then
              (calls1 ++ [EngineCall.attachReplicationPublisher],
               Except.error InitErr.unableToAttachDataConnector)
            else if env.attachConnectorToPublisherOk then
              (calls1 ++ [EngineCall.attachReplicationPublisher,
                          EngineCall.attachConnectorToPublisher],
               Except.ok ())
            else
              (calls1 ++ [EngineCall.attachReplicationPublisher,
                          EngineCall.attachConnectorToPublisher],
               Except.error InitErr.unableToAttachDataConnector)
          else
            if env.attachConnectorToPublisherOk then
              (calls1 ++ [EngineCall.attachConnectorToPublisher], Except.ok ())
            else
              (calls1 ++ [EngineCall.attachConnectorToPublisher],
               Except.error InitErr.unableToAttachDataConnector)

/-- Observable events of the dataset load pipeline and of
`remove_dataset`/`update_dataset`, in the order the source performs
them. -/
inductive DsEvent
  | status (s : ComponentStatus)
  | loadErrorCounter
  | resolveConnector
  | engine (c : EngineCall)
  | warnNoAcceleration
  | sleepRetry
  | removeTable
  | warnUnableToUnload
  | infoUnloaded
  | gaugeDecrement
deriving DecidableEq, Repr

/-- Outcome of one run of the dataset load pipeline's loop. -/
inductive LoadOutcome
  | errorDepVerify
  | unserved
  | ready
  | exhausted
deriving DecidableEq, Repr

/-- Outcomes of the external calls made during one attempt (one loop
iteration) of the dataset load pipeline: the view-dependency lookup, the
connector-registry creation, and the query-engine attach calls. -/
structure AttemptEnv where
  depLookup : Except Unit (List String)
  create : CreateOutcome
  df : DfEnv
deriving Repr

/-- How one attempt (one iteration of `Runtime::load_dataset`'s loop)
ends: dependency verification failed (the iteration returns), connector
resolution failed (retry), the unserved configuration was detected
(break without status), attachment failed after the given engine calls
(retry), or attachment succeeded after the given engine calls (break
with Ready). -/
inductive AttemptStep
  | depVerifyFailed
  | resolveFailed
  | unservedConfig
  | attachFailed (calls : List EngineCall)
  | attached (calls : List EngineCall)
deriving DecidableEq, Repr

/-- The decision structure of one iteration of `Runtime::load_dataset`'s
loop: verify dependent tables, resolve the connector, check the
unserved configuration, then run `initialize_dataconnector`. -/
def load_dataset_attempt (ds : Dataset) (existing_tables : List String)
    (env : AttemptEnv) : AttemptStep :=
  if !verify_dependent_tables ds existing_tables env.depLookup then
    AttemptStep.depVerifyFailed
  else
    match get_dataconnector_from_source ds.source env.create with
    | Except.error _ => AttemptStep.resolveFailed
    | Except.ok data_connector =>
      if ds.acceleration.isNone && !ds.is_view
          && !has_table_provider data_connector then
        AttemptStep.unservedConfig
      else
        let init := initialize_dataconnector data_connector ds env.df
        match init.2 with
        | Except.ok _ => AttemptStep.attached init.1
        | Except.error _ => AttemptStep.attachFailed init.1

/-- The loop of `Runtime::load_dataset`, iterated over the per-attempt
external outcomes `envs` (the source loops indefinitely; a run is observed
through a finite prefix of attempts, `LoadOutcome.exhausted` standing for
"still retrying").  Per attempt: dependency verification failure writes
Error and returns; a connector-resolution failure writes Error, sleeps
and retries; the no-acceleration/no-table-provider configuration warns
and breaks without a status write; an attachment failure writes Error,
sleeps and retries; attachment success writes Ready and breaks. -/
def load_dataset_loop (ds : Dataset) (existing_tables : List String) :
    List AttemptEnv → List DsEvent × LoadOutcome
  | [] => ([], LoadOutcome.exhausted)
  | env :: rest =>
    match load_dataset_attempt ds existing_tables env with
    | AttemptStep.depVerifyFailed =>
      ([DsEvent.status ComponentStatus.Error, DsEvent.loadErrorCounter],
       LoadOutcome.errorDepVerify)
    | AttemptStep.resolveFailed =>
      let tail := load_dataset_loop ds existing_tables rest
      (DsEvent.resolveConnector :: DsEvent.status ComponentStatus.Error ::
         DsEvent.loadErrorCounter :: DsEvent.sleepRetry :: tail.1, tail.2)
    | AttemptStep.unservedConfig =>
      ([DsEvent.resolveConnector, DsEvent.warnNoAcceleration],
       LoadOutcome.unserved)
    | AttemptStep.attachFailed calls =>
      let tail := load_dataset_loop ds existing_tables rest
      (DsEvent.resolveConnector :: calls.map DsEvent.engine
         ++ DsEvent.status ComponentStatus.Error :: DsEvent.loadErrorCounter ::
            DsEvent.sleepRetry :: tail.1, tail.2)
    | AttemptStep.attached calls =>
      (DsEvent.resolveConnector :: calls.map DsEvent.engine
         ++ [DsEvent.status ComponentStatus.Ready], LoadOutcome.ready)

/-- A dataset load invocation on the add path: the caller
(`load_datasets` or the watcher's add branch) writes Initializing
immediately before spawning `load_dataset`'s loop. -/
def load_dataset_invocation (ds : Dataset) (existing_tables : List String)
    (envs : List AttemptEnv) : List DsEvent × LoadOutcome :=
  let r := load_dataset_loop ds existing_tables envs
  (DsEvent.status ComponentStatus.Initializing :: r.1, r.2)

/-- The status-registry writes contained in a dataset event trace, in
order. -/
def statusWrites (evs : List DsEvent) : List ComponentStatus :=
  evs.filterMap (fun e =>
    match e with
    | DsEvent.status s => some s
    | _ => none)

/-- `Runtime::remove_dataset` over the query engine's table set: when
the table exists, `remove_table` is called (on failure a warning is
logged and the function returns early); in every other path, the
unloaded message is logged and the datasets gauge decremented.  The
query engine's `remove_table` is modelled from the spec (`datafusion`
module is not part of the embedded source): on success it removes the
name from the registered table set. -/
def remove_dataset (ds : Dataset) (tables : List String)
    (removeTableFails : Bool) : List DsEvent × List String :=
  if tables.contains ds.name then
    if removeTableFails then
      ([DsEvent.removeTable, DsEvent.warnUnableToUnload], tables)
    else
      ([DsEvent.removeTable, DsEvent.infoUnloaded, DsEvent.gaugeDecrement],
       tables.erase ds.name)
  else
    ([DsEvent.infoUnloaded, DsEvent.gaugeDecrement], tables)

/-- `Runtime::update_dataset`: writes Refreshing, awaits
`remove_dataset`, then spawns `load_dataset` afresh. -/
def update_dataset (ds : Dataset) (existing_tables : List String)
    (tables : List String) (removeTableFails : Bool)
    (envs : List AttemptEnv) : List DsEvent × LoadOutcome :=
  let rem := remove_dataset ds tables removeTableFails
  let load := load_dataset_loop ds existing_tables envs
  (DsEvent.status ComponentStatus.Refreshing :: rem.1 ++ load.1, load.2)

/-- Observable events of the model load/remove pipeline. -/
inductive ModelEvent
  | status (s : ComponentStatus)
  | infoDeployed
  | gaugeIncrement
  | loadErrorCounter
  | warnUnableToLoad
  | warnNotFound
  | infoUnloaded
  | gaugeDecrement
deriving DecidableEq, Repr

/-- The model registry: the `HashMap<String, Model>` owned by the
Runtime, embedded as an association list with unique keys; a loaded
model handle is abstracted as a `Nat`. -/
def Models := List (String × Nat)

/-- `HashMap::contains_key`. -/
def modelsContains (models : Models) (k : String) : Bool :=
  models.any (fun p => p.1 == k)

/-- `HashMap::insert`: replaces any prior entry under the key. -/
def modelsInsert (k : String) (v : Nat) (models : Models) : Models :=
  (k, v) :: models.filter (fun p => !(p.1 == k))

/-- `HashMap::remove`. -/
def modelsRemove (k : String) (models : Models) : Models :=
  models.filter (fun p => !(p.1 == k))

/-- Lookup in the model registry. -/
def modelsGet (models : Models) (k : String) : Option Nat :=
  (models.find? (fun p => p.1 == k)).map (fun p => p.2)

/-- `Runtime::load_model`: materializes the model (`Model::load`, an
external call whose outcome is `result`: `some handle` on success,
`none` on failure) under the registry's write lock; on success the
model is inserted and Ready written; on failure a load-error counter and
Error are emitted and the registry is not touched.  No retry: the
function is a single pass. -/
def load_model (m : SpicepodModel) (models : Models) (result : Option Nat) :
    List ModelEvent × Models :=
  match result with
  | some handle =>
    ([ModelEvent.infoDeployed, ModelEvent.gaugeIncrement,
      ModelEvent.status ComponentStatus.Ready],
     modelsInsert m.name handle models)
  | none =>
    ([ModelEvent.loadErrorCounter, ModelEvent.status ComponentStatus.Error,
      ModelEvent.warnUnableToLoad], models)

/-- `Runtime::remove_model`: when the name is absent from the registry a
warning is logged and nothing else happens; otherwise the entry is
removed, the unloaded message logged and the models gauge decremented. -/
def remove_model (m : SpicepodModel) (models : Models) :
    List ModelEvent × Models :=
  if !modelsContains models m.name then
    ([ModelEvent.warnNotFound], models)
  else
    ([ModelEvent.infoUnloaded, ModelEvent.gaugeDecrement],
     modelsRemove m.name models)

/-- A full specification snapshot (`App`): the declared dataset and
model specs.  Modelled from the spec (the `app` crate is not part of the
embedded source); compared by value. -/
structure App where
  datasets : List Dataset
  models : List SpicepodModel
deriving DecidableEq, Repr

/-- Per-entity actions and status writes dispatched by one iteration of
`Runtime::start_pods_watcher`'s reconciliation body, plus the final
replacement of the accepted snapshot (`commitSnapshot`). -/
inductive ReconcileEvent
  | dsStatus (name : String) (s : ComponentStatus)
  | modelStatus (name : String) (s : ComponentStatus)
  | dispatchLoadDataset (d : Dataset)
  | dispatchUpdateDataset (d : Dataset)
  | dispatchLoadModel (m : SpicepodModel)
  | dispatchUpdateModel (m : SpicepodModel)
  | dispatchRemoveModel (m : SpicepodModel)
  | dispatchRemoveDataset (d : Dataset)
  | commitSnapshot
deriving DecidableEq, Repr

/-- Action for one dataset of the new snapshot, given the accepted
snapshot's entry found under the same name: an update dispatch when the
found value differs, nothing when equal, an Initializing write plus a
load dispatch when the name is new. -/
def datasetAddAction (found : Option Dataset) (ds : Dataset) :
    List ReconcileEvent :=
  match found with
  | some current_ds =>
    if current_ds != ds then [ReconcileEvent.dispatchUpdateDataset ds] else []
  | none =>
    [ReconcileEvent.dsStatus ds.name ComponentStatus.Initializing,
     ReconcileEvent.dispatchLoadDataset ds]

/-- Dataset add/update phase of the reconciler. -/
def reconcileDatasetAdds (current new : App) : List ReconcileEvent :=
  new.datasets.flatMap (fun ds =>
    datasetAddAction (current.datasets.find? (fun d => d.name == ds.name)) ds)

/-- Action for one model of the new snapshot, given the accepted
snapshot's entry found under the same name. -/
def modelAddAction (found : Option SpicepodModel) (m : SpicepodModel) :
    List ReconcileEvent :=
  match found with
  | some current_model =>
    if current_model != m then [ReconcileEvent.dispatchUpdateModel m] else []
  | none =>
    [ReconcileEvent.modelStatus m.name ComponentStatus.Initializing,
     ReconcileEvent.dispatchLoadModel m]

/-- Model add/update phase of the reconciler. -/
def reconcileModelAdds (current new : App) : List ReconcileEvent :=
  new.models.flatMap (fun m =>
    modelAddAction (current.models.find? (fun c => c.name == m.name)) m)

/-- Model removal phase of the reconciler: models of the accepted
snapshot whose name is gone from the new one get a Disabled write and a
remove dispatch. -/
def reconcileModelRemovals (current new : App) : List ReconcileEvent :=
  current.models.flatMap (fun m =>
    if new.models.any (fun n => n.name == m.name) then []
    else
      [ReconcileEvent.modelStatus m.name ComponentStatus.Disabled,
       ReconcileEvent.dispatchRemoveModel m])

/-- Dataset removal phase of the reconciler. -/
def reconcileDatasetRemovals (current new : App) : List ReconcileEvent :=
  current.datasets.flatMap (fun ds =>
    if new.datasets.any (fun d => d.name == ds.name) then []
    else
      [ReconcileEvent.dsStatus ds.name ComponentStatus.Disabled,
       ReconcileEvent.dispatchRemoveDataset ds])

/-- One iteration of `Runtime::start_pods_watcher`'s body when an
accepted snapshot is held: an equal snapshot is skipped; otherwise the
four phases run in source order (new/updated datasets, new/updated
models, model removals, dataset removals) and only then is the accepted
snapshot replaced by the new one. -/
def reconcile_step (current new : App) : List ReconcileEvent × App :=
  if current = new then
    ([], current)
  else
    (reconcileDatasetAdds current new ++ reconcileModelAdds current new
       ++ reconcileModelRemovals current new
       ++ reconcileDatasetRemovals current new
       ++ [ReconcileEvent.commitSnapshot], new)

/-- One receive of `Runtime::start_pods_watcher`: when no snapshot has
been accepted yet, the received snapshot is stored without any
dispatch; otherwise the reconciliation body runs. -/
def pods_watcher_step (appCell : Option App) (new : App) :
    List ReconcileEvent × Option App :=
  match appCell with
  | some current =>
    let r := reconcile_step current new
    (r.1, some r.2)
  | none => ([], some new)

/-- `Runtime::start_pods_watcher`'s receive loop, run over a finite
list of snapshots yielded by the watcher stream. -/
def pods_watcher_run (appCell : Option App) :
    List App → List ReconcileEvent × Option App
  | [] => ([], appCell)
  | a :: rest =>
    let r := pods_watcher_step appCell a
    let r2 := pods_watcher_run r.2 rest
    (r.1 ++ r2.1, r2.2)

/-- The status-registry writes contained in a model event trace, in
order. -/
def modelStatusWrites (evs : List ModelEvent) : List ComponentStatus :=
  evs.filterMap (fun e =>
    match e with
    | ModelEvent.status s => some s
    | _ => none)

/-- Reconcile events belonging to the dataset add/update phase. -/
def isDatasetAddOrUpdate : ReconcileEvent → Bool
  | ReconcileEvent.dsStatus _ ComponentStatus.Initializing => true
  | ReconcileEvent.dispatchLoadDataset _ => true
  | ReconcileEvent.dispatchUpdateDataset _ => true
  | _ => false

/-- Reconcile events belonging to the model add/update phase. -/
def isModelAddOrUpdate : ReconcileEvent → Bool
  | ReconcileEvent.modelStatus _ ComponentStatus.Initializing => true
  | ReconcileEvent.dispatchLoadModel _ => true
  | ReconcileEvent.dispatchUpdateModel _ => true
  | _ => false

/-- Reconcile events belonging to the model removal phase. -/
def isModelRemoval : ReconcileEvent → Bool
  | ReconcileEvent.modelStatus _ ComponentStatus.Disabled => true
  | ReconcileEvent.dispatchRemoveModel _ => true
  | _ => false

/-- Reconcile events belonging to the dataset removal phase. -/
def isDatasetRemoval : ReconcileEvent → Bool
  | ReconcileEvent.dsStatus _ ComponentStatus.Disabled => true
  | ReconcileEvent.dispatchRemoveDataset _ => true
  | _ => false

/-! Concrete fixtures used by witnesses and counterexamples. -/

/-- A connector that offers a table provider and no write publisher. -/
def connDemo : Connector :=
  { hasTableProvider := true, hasDataPublisher := false }

/-- Query-engine environment in which every call succeeds. -/
def dfEnvAllOk : DfEnv :=
  { attachViewOk := true, attachMeshOk := true, newBackendOk := true,
    attachPublisherOk := true, attachReplicationPublisherOk := true,
    attachConnectorToPublisherOk := true }

/-- Attempt environment: dependency lookup yields no referenced tables,
the connector registry creates `connDemo`, every engine call succeeds. -/
def attemptOk : AttemptEnv :=
  { depLookup := Except.ok [], create := CreateOutcome.created connDemo,
    df := dfEnvAllOk }

/-- Attempt environment in which the connector registry does not know
the source. -/
def attemptUnknown : AttemptEnv :=
  { attemptOk with create := CreateOutcome.unknownSource }

/-- Attempt environment in which the known connector's own
initialization fails. -/
def attemptInitFailed : AttemptEnv :=
  { attemptOk with create := CreateOutcome.initFailed }

/-- Attempt environment whose view-dependency lookup reports a
reference to table `"missing"`. -/
def attemptDepMissing : AttemptEnv :=
  { attemptOk with depLookup := Except.ok ["missing"] }

/-- A plain non-view dataset over source `"spice"`, no acceleration, no
replication, read-only. -/
def dsDemo : Dataset :=
  { name := "a", source := "spice", params := [], acceleration := none,
    replication := none, mode := Mode.Read, sql := none,
    sqlMalformed := false }

/-- A view dataset. -/
def dsViewDemo : Dataset :=
  { dsDemo with name := "v", sql := some "SELECT 1 FROM t" }

/-- A dataset over the reserved sentinel source `"localhost"`. -/
def dsLocalhost : Dataset :=
  { dsDemo with source := "localhost" }

/-- A demo model spec. -/
def mDemo : SpicepodModel :=
  { name := "m", fromUri := "file:model", params := [] }

/-- An accepted snapshot: two datasets and one model. -/
def appCur : App :=
  { datasets := [dsDemo, dsViewDemo], models := [mDemo] }

/-- A new snapshot: `dsDemo` unchanged, the view dataset updated to a
different value, the model removed. -/
def appNew : App :=
  { datasets := [dsDemo, { dsViewDemo with mode := Mode.ReadWrite }],
    models := [] }

/-! Helper lemmas about traces. -/

theorem statusWrites_nil : statusWrites [] = [] := rfl

theorem statusWrites_cons (e : DsEvent) (l : List DsEvent) :
    statusWrites (e :: l)
      = (match e with | DsEvent.status s => [s] | _ => []) ++ statusWrites l := by
  cases e <;> rfl

theorem statusWrites_append (l1 l2 : List DsEvent) :
    statusWrites (l1 ++ l2) = statusWrites l1 ++ statusWrites l2 := by
  simp [statusWrites]

theorem statusWrites_engineMap (calls : List EngineCall) :
    statusWrites (calls.map DsEvent.engine) = [] := by
  induction calls with
  | nil => rfl
  | cons c cs ih => simp [statusWrites]

/-- C1 (counterexample): for the dataset `dsDemo` whose source is
unknown to the connector registry on every attempt, the load pipeline
re-attempts connector resolution (two resolution events across two
supplied attempts) and is still retrying rather than having exited, so
an unknown source is not treated as a permanent, non-retried failure. -/
theorem c1_unknown_source_retried_counterexample :
    (load_dataset_loop dsDemo [] [attemptUnknown, attemptUnknown]).1.count
        DsEvent.resolveConnector = 2
    ∧ (load_dataset_loop dsDemo [] [attemptUnknown, attemptUnknown]).2
        = LoadOutcome.exhausted := by
  decide

/-- C1 (amended): both connector-resolution failure kinds — unknown
source and failed initialization of a known connector — are treated
identically by the load pipeline: the attempt writes Error, emits the
load-error counter, sleeps, and the loop retries with the remaining
attempts; an unknown source is not permanent. -/
theorem c1_resolution_failure_always_retried (ds : Dataset)
    (existing_tables : List String) (env : AttemptEnv) (rest : List AttemptEnv)
    (hsrc : ¬ ds.source = "localhost")
    (hverify : verify_dependent_tables ds existing_tables env.depLookup = true)
    (hcreate : env.create = CreateOutcome.unknownSource
               ∨ env.create = CreateOutcome.initFailed) :
    load_dataset_loop ds existing_tables (env :: rest)
      = (DsEvent.resolveConnector :: DsEvent.status ComponentStatus.Error ::
           DsEvent.loadErrorCounter :: DsEvent.sleepRetry ::
           (load_dataset_loop ds existing_tables rest).1,
         (load_dataset_loop ds existing_tables rest).2) := by
  have hstep : load_dataset_attempt ds existing_tables env
      = AttemptStep.resolveFailed := by
    rcases hcreate with h | h <;>
      simp [load_dataset_attempt, get_dataconnector_from_source, hverify,
            hsrc, h]
  simp [load_dataset_loop, hstep]

/-- C1 (witness): the amended theorem applied to `dsDemo` with a single
unknown-source attempt. -/
theorem c1_resolution_failure_always_retried_witness :
    load_dataset_loop dsDemo [] [attemptUnknown]
      = (DsEvent.resolveConnector :: DsEvent.status ComponentStatus.Error ::
           DsEvent.loadErrorCounter :: DsEvent.sleepRetry ::
           (load_dataset_loop dsDemo [] []).1,
         (load_dataset_loop dsDemo [] []).2) :=
  c1_resolution_failure_always_retried dsDemo [] attemptUnknown []
    (by decide) (by decide) (Or.inl (by decide))

/-- C2 (counterexample): for the view dataset `dsViewDemo` whose
dependency lookup reports the absent table `"missing"`, the load
pipeline terminates at once with an Error status even though a further
attempt environment is available: no retry sleep occurs, so dependency
verification failure is not retryable. -/
theorem c2_dep_verify_terminal_counterexample :
    load_dataset_loop dsViewDemo [] [attemptDepMissing, attemptDepMissing]
      = ([DsEvent.status ComponentStatus.Error, DsEvent.loadErrorCounter],
         LoadOutcome.errorDepVerify)
    ∧ DsEvent.sleepRetry
        ∉ (load_dataset_loop dsViewDemo [] [attemptDepMissing, attemptDepMissing]).1 := by
  decide

/-- C2 (amended): a dependency-verification failure is permanent: the
pipeline writes Error, emits the load-error counter and exits
immediately, ignoring any remaining attempts (no retry, no delay). -/
theorem c2_dep_verify_failure_is_permanent (ds : Dataset)
    (existing_tables : List String) (env : AttemptEnv) (rest : List AttemptEnv)
    (hverify : verify_dependent_tables ds existing_tables env.depLookup = false) :
    load_dataset_loop ds existing_tables (env :: rest)
      = ([DsEvent.status ComponentStatus.Error, DsEvent.loadErrorCounter],
         LoadOutcome.errorDepVerify) := by
  have hstep : load_dataset_attempt ds existing_tables env
      = AttemptStep.depVerifyFailed := by
    simp [load_dataset_attempt, hverify]
  simp [load_dataset_loop, hstep]

/-- C2 (witness): the amended theorem applied to `dsViewDemo` with the
missing-dependency lookup. -/
theorem c2_dep_verify_failure_is_permanent_witness :
    load_dataset_loop dsViewDemo [] [attemptDepMissing]
      = ([DsEvent.status ComponentStatus.Error, DsEvent.loadErrorCounter],
         LoadOutcome.errorDepVerify) :=
  c2_dep_verify_failure_is_permanent dsViewDemo [] attemptDepMissing []
    (by decide)

/-- C5 (counterexample): the load pipeline does invoke connector
resolution for the view dataset `dsViewDemo`: its successful load trace
contains a connector-resolution event. -/
theorem c5_view_resolves_connector_counterexample :
    dsViewDemo.is_view = true
    ∧ DsEvent.resolveConnector ∈ (load_dataset_loop dsViewDemo [] [attemptOk]).1 := by
  decide

/-- C5 (amended): for a dataset declaring a view query, the attachment
step (`initialize_dataconnector`) is exclusive: every query-engine call
it makes is the view attach — no mesh attach, no accelerated-backend
creation, no publisher attachment — though connector resolution is
still performed by the pipeline before attachment. -/
theorem c5_view_attachment_exclusive (data_connector : Option Connector)
    (ds : Dataset) (env : DfEnv) (hview : ds.sql.isSome = true) :
    ∀ c ∈ (initialize_dataconnector data_connector ds env).1,
      c = EngineCall.attachView := by
  by_cases hm : ds.sqlMalformed = true
  · simp [initialize_dataconnector, Dataset.view_sql, hm]
  · simp only [Bool.not_eq_true] at hm
    have hsql : ds.view_sql = Except.ok ds.sql := by
      simp [Dataset.view_sql, hm]
    unfold initialize_dataconnector
    rw [hsql]
    simp only [hview, if_true]
    split <;> simp

/-- C5 (witness): no mesh attach occurs for `dsViewDemo`. -/
theorem c5_view_attachment_exclusive_witness :
    EngineCall.attachMesh
      ∉ (initialize_dataconnector none dsViewDemo dfEnvAllOk).1 := by
  intro hmem
  have h := c5_view_attachment_exclusive none dsViewDemo dfEnvAllOk (by decide)
      EngineCall.attachMesh hmem
  exact absurd h (by decide)

/-- C6 (confirmed): a non-view dataset with no acceleration whose
resolved connector is absent or offers no table provider is abandoned:
the pipeline logs the no-acceleration warning and exits (unserved)
without writing any status — no Error, no Ready — and without retrying. -/
theorem c6_unserved_configuration (ds : Dataset) (existing_tables : List String)
    (env : AttemptEnv) (rest : List AttemptEnv) (dc : Option Connector)
    (hsql : ds.sql = none) (hacc : ds.acceleration = none)
    (hres : get_dataconnector_from_source ds.source env.create = Except.ok dc)
    (hprov : has_table_provider dc = false) :
    load_dataset_loop ds existing_tables (env :: rest)
      = ([DsEvent.resolveConnector, DsEvent.warnNoAcceleration],
         LoadOutcome.unserved) := by
  have hview : ds.is_view = false := by simp [Dataset.is_view, hsql]
  have hverify : verify_dependent_tables ds existing_tables env.depLookup
      = true := by
    simp [verify_dependent_tables, hview]
  have hstep : load_dataset_attempt ds existing_tables env
      = AttemptStep.unservedConfig := by
    simp [load_dataset_attempt, hverify, hres, hacc, hview, hprov]
  simp [load_dataset_loop, hstep]

/-- C6 (witness): the theorem applied to `dsLocalhost` (reserved source,
so the resolved connector is absent) with no acceleration. -/
theorem c6_unserved_configuration_witness :
    load_dataset_loop dsLocalhost [] [attemptOk]
      = ([DsEvent.resolveConnector, DsEvent.warnNoAcceleration],
         LoadOutcome.unserved) :=
  c6_unserved_configuration dsLocalhost [] attemptOk [] none
    (by decide) (by decide) (by decide) (by decide)

/-- Every run of the load loop that ends Ready wrote exactly one Error
status per failed retryable attempt followed by a single final Ready. -/
theorem loop_ready_statuses (ds : Dataset) (existing_tables : List String) :
    ∀ envs : List AttemptEnv,
      (load_dataset_loop ds existing_tables envs).2 = LoadOutcome.ready →
      ∃ k, statusWrites (load_dataset_loop ds existing_tables envs).1
        = List.replicate k ComponentStatus.Error ++ [ComponentStatus.Ready] := by
  intro envs
  induction envs with
  | nil => intro h; simp [load_dataset_loop] at h
  | cons env rest ih =>
    intro h
    cases hstep : load_dataset_attempt ds existing_tables env with
    | depVerifyFailed => simp [load_dataset_loop, hstep] at h
    | resolveFailed =>
      simp only [load_dataset_loop, hstep] at h ⊢
      obtain ⟨k, hk⟩ := ih h
      refine ⟨k + 1, ?_⟩
      simp only [statusWrites_cons, List.replicate_succ]
      simp [hk]
    | unservedConfig => simp [load_dataset_loop, hstep] at h
    | attachFailed calls =>
      simp only [load_dataset_loop, hstep] at h ⊢
      obtain ⟨k, hk⟩ := ih h
      refine ⟨k + 1, ?_⟩
      simp only [statusWrites_cons, statusWrites_append, statusWrites_engineMap,
        List.replicate_succ]
      simp [hk]
    | attached calls =>
      refine ⟨0, ?_⟩
      simp [load_dataset_loop, hstep, statusWrites_cons, statusWrites_append,
        statusWrites_engineMap, statusWrites_nil]

/-- Every status the load loop itself writes is Error or Ready. -/
theorem loop_statuses_only_error_or_ready (ds : Dataset)
    (existing_tables : List String) :
    ∀ envs : List AttemptEnv,
      ∀ s ∈ statusWrites (load_dataset_loop ds existing_tables envs).1,
        s = ComponentStatus.Error ∨ s = ComponentStatus.Ready := by
  intro envs
  induction envs with
  | nil => simp [load_dataset_loop, statusWrites]
  | cons env rest ih =>
    intro s hs
    cases hstep : load_dataset_attempt ds existing_tables env with
    | depVerifyFailed =>
      simp [load_dataset_loop, hstep, statusWrites_cons, statusWrites] at hs
      exact Or.inl hs
    | resolveFailed =>
      simp only [load_dataset_loop, hstep, statusWrites_cons,
        List.nil_append, List.cons_append, List.mem_cons] at hs
      rcases hs with hs | hs
      · exact Or.inl hs
      · exact ih s (by simpa using hs)
    | unservedConfig =>
      simp [load_dataset_loop, hstep, statusWrites_cons, statusWrites] at hs
    | attachFailed calls =>
      simp only [load_dataset_loop, hstep, statusWrites_cons,
        statusWrites_append, statusWrites_engineMap, List.nil_append,
        List.cons_append, List.mem_cons, List.mem_append] at hs
      rcases hs with hs | hs
      · exact Or.inl hs
      · exact ih s (by simpa using hs)
    | attached calls =>
      simp [load_dataset_loop, hstep, statusWrites_cons, statusWrites_append,
        statusWrites_engineMap, statusWrites] at hs
      exact Or.inr hs

/-- C3 (counterexample): an invocation whose first attempt fails on
connector initialization and whose second succeeds reaches Ready, yet
its status writes are Initializing, Error, Ready — an Error status was
written during the invocation, contradicting the claim. -/
theorem c3_error_before_ready_counterexample :
    (load_dataset_loop dsDemo [] [attemptInitFailed, attemptOk]).2
        = LoadOutcome.ready
    ∧ statusWrites
        (load_dataset_invocation dsDemo [] [attemptInitFailed, attemptOk]).1
        = [ComponentStatus.Initializing, ComponentStatus.Error,
           ComponentStatus.Ready] := by
  decide

/-- C3 (amended): for every invocation that reaches Ready, the statuses
written are the caller's Initializing, then one Error per failed
retryable attempt, then a single terminal Ready; in particular Ready is
written exactly once and last, and the sequence is exactly
Initializing, Ready only when no attempt failed. -/
theorem c3_ready_invocation_statuses (ds : Dataset)
    (existing_tables : List String) (envs : List AttemptEnv)
    (h : (load_dataset_loop ds existing_tables envs).2 = LoadOutcome.ready) :
    ∃ k, statusWrites (load_dataset_invocation ds existing_tables envs).1
      = ComponentStatus.Initializing ::
          (List.replicate k ComponentStatus.Error ++ [ComponentStatus.Ready]) := by
  obtain ⟨k, hk⟩ := loop_ready_statuses ds existing_tables envs h
  refine ⟨k, ?_⟩
  simp only [load_dataset_invocation, statusWrites_cons]
  simp [hk]

/-- C3 (witness): the amended theorem applied to the retry-then-succeed
invocation. -/
theorem c3_ready_invocation_statuses_witness :
    ∃ k, statusWrites
        (load_dataset_invocation dsDemo [] [attemptInitFailed, attemptOk]).1
      = ComponentStatus.Initializing ::
          (List.replicate k ComponentStatus.Error ++ [ComponentStatus.Ready]) :=
  c3_ready_invocation_statuses dsDemo [] [attemptInitFailed, attemptOk]
    (by decide)

/-- C4 (counterexample): a concrete dataset update writes statuses
Refreshing then Ready — no Initializing status is written between the
removal and the reload, contradicting the claimed full sequence
Refreshing, remove, Initializing, terminal. -/
theorem c4_no_initializing_counterexample :
    statusWrites (update_dataset dsDemo [] ["a"] false [attemptOk]).1
      = [ComponentStatus.Refreshing, ComponentStatus.Ready] := by
  decide

/-- C4 (amended): a dataset update writes Refreshing, performs the
removal (which writes no status), then reloads directly: the statuses
written are Refreshing followed by the reload's own writes, and an
Initializing status never occurs during the update. -/
theorem c4_update_statuses (ds : Dataset) (existing_tables tables : List String)
    (removeTableFails : Bool) (envs : List AttemptEnv) :
    statusWrites (update_dataset ds existing_tables tables removeTableFails envs).1
      = ComponentStatus.Refreshing ::
          statusWrites (load_dataset_loop ds existing_tables envs).1
    ∧ ComponentStatus.Initializing
        ∉ statusWrites
            (update_dataset ds existing_tables tables removeTableFails envs).1 := by
  have hrem : statusWrites (remove_dataset ds tables removeTableFails).1 = [] := by
    unfold remove_dataset
    split
    · split <;> rfl
    · rfl
  have heq : statusWrites
      (update_dataset ds existing_tables tables removeTableFails envs).1
      = ComponentStatus.Refreshing ::
          statusWrites (load_dataset_loop ds existing_tables envs).1 := by
    simp only [update_dataset, statusWrites_cons, statusWrites_append, hrem]
    simp
  refine ⟨heq, ?_⟩
  rw [heq]
  intro hmem
  rcases List.mem_cons.mp hmem with hmem | hmem
  · exact absurd hmem (by decide)
  · rcases loop_statuses_only_error_or_ready ds existing_tables envs
        ComponentStatus.Initializing hmem with hc | hc <;>
      exact absurd hc (by decide)

/-- C4 (witness): the first conjunct of the amended theorem at the
concrete update. -/
theorem c4_update_statuses_witness :
    statusWrites (update_dataset dsDemo [] ["a"] false [attemptOk]).1
      = ComponentStatus.Refreshing ::
          statusWrites (load_dataset_loop dsDemo [] [attemptOk]).1 :=
  (c4_update_statuses dsDemo [] ["a"] false [attemptOk]).1

/-- Inserting under a key makes lookup of that key yield the new value. -/
theorem modelsGet_insert_self (k : String) (v : Nat) (models : Models) :
    modelsGet (modelsInsert k v models) k = some v := by
  simp [modelsGet, modelsInsert, List.find?]

/-- Inserting under a key leaves lookup of every other key unchanged. -/
theorem modelsGet_insert_other (k k' : String) (v : Nat) (models : Models)
    (h : ¬ k' = k) :
    modelsGet (modelsInsert k v models) k' = modelsGet models k' := by
  have hk : (k == k') = false := by
    simp [Ne.symm h]
  induction models with
  | nil => simp [modelsGet, modelsInsert, List.find?, hk]
  | cons a l ih =>
    by_cases ha : (a.1 == k) = true
    · have ha1 : a.1 = k := by simpa using ha
      have hpa : (a.1 == k') = false := by simp [ha1, Ne.symm h]
      simp only [modelsGet, modelsInsert, List.filter_cons, ha,
        Bool.not_true] at ih ⊢
      simp only [List.find?, hk, hpa] at ih ⊢
      exact ih
    · have ha' : (a.1 == k) = false := by simpa using ha
      by_cases hpa : (a.1 == k') = true
      · simp [modelsGet, modelsInsert, List.filter_cons, ha',
          List.find?, hk, hpa]
      · have hpa' : (a.1 == k') = false := by simpa using hpa
        simp only [modelsGet, modelsInsert, List.filter_cons, ha',
          Bool.not_false, List.find?, hk, hpa'] at ih ⊢
        exact ih

/-- C7 (confirmed): model loading is atomic with respect to the model
registry: on materialization success the model is inserted under its
name (other entries untouched) and the only status written is Ready; on
failure the registry is returned completely unchanged and the only
status written is Error — and the pipeline makes exactly one pass, so
there is no retry. -/
theorem c7_model_load_atomic (m : SpicepodModel) (models : Models) :
    (∀ handle : Nat,
       modelsGet (load_model m models (some handle)).2 m.name = some handle
       ∧ (∀ k : String, ¬ k = m.name →
            modelsGet (load_model m models (some handle)).2 k
              = modelsGet models k)
       ∧ modelStatusWrites (load_model m models (some handle)).1
           = [ComponentStatus.Ready])
    ∧ ((load_model m models none).2 = models
       ∧ modelStatusWrites (load_model m models none).1
           = [ComponentStatus.Error]) := by
  constructor
  · intro handle
    refine ⟨?_, ?_, ?_⟩
    · simpa [load_model] using modelsGet_insert_self m.name handle models
    · intro k hk
      simpa [load_model] using modelsGet_insert_other m.name k handle models hk
    · rfl
  · exact ⟨rfl, rfl⟩

/-- C7 (witness): the theorem applied to `mDemo` over a one-entry
registry, on both the success branch (other entry preserved) and the
failure branch (registry untouched). -/
theorem c7_model_load_atomic_witness :
    modelsGet (load_model mDemo [("x", 3)] (some 7)).2 "x"
      = modelsGet [("x", 3)] "x"
    ∧ (load_model mDemo [("x", 3)] none).2 = [("x", 3)] :=
  ⟨((c7_model_load_atomic mDemo [("x", 3)]).1 7).2.1 "x" (by decide),
   (c7_model_load_atomic mDemo [("x", 3)]).2.1⟩

/-- C8 (counterexample): removing the dataset `dsDemo` when its name is
not in the query engine's table set does not log a warning: it logs the
normal unloaded message and decrements the datasets gauge (the table
set is left unchanged), contradicting the claimed warning. -/
theorem c8_remove_dataset_no_warning_counterexample :
    remove_dataset dsDemo ["other"] false
      = ([DsEvent.infoUnloaded, DsEvent.gaugeDecrement], ["other"])
    ∧ DsEvent.warnUnableToUnload ∉ (remove_dataset dsDemo ["other"] false).1 := by
  decide

/-- C8 (amended): removing a name that is absent never panics (both
functions are total) and leaves the registries unchanged; `remove_model`
logs the not-found warning, but `remove_dataset` instead skips the
table removal and logs the ordinary unloaded message while decrementing
the datasets gauge — the dataset-side warning only accompanies a failed
table removal. -/
theorem c8_remove_missing_is_noop (ds : Dataset) (m : SpicepodModel)
    (tables : List String) (models : Models) (removeTableFails : Bool)
    (hds : tables.contains ds.name = false)
    (hm : modelsContains models m.name = false) :
    remove_dataset ds tables removeTableFails
      = ([DsEvent.infoUnloaded, DsEvent.gaugeDecrement], tables)
    ∧ remove_model m models = ([ModelEvent.warnNotFound], models) := by
  have hds' : ¬ ds.name ∈ tables := by simpa using hds
  constructor
  · simp [remove_dataset, hds']
  · simp [remove_model, hm]

/-- C8 (witness): the amended theorem applied to absent names in a
one-entry table set and a one-entry model registry. -/
theorem c8_remove_missing_is_noop_witness :
    remove_dataset dsDemo ["other"] true
      = ([DsEvent.infoUnloaded, DsEvent.gaugeDecrement], ["other"])
    ∧ remove_model mDemo [("x", 1)] = ([ModelEvent.warnNotFound], [("x", 1)]) :=
  c8_remove_missing_is_noop dsDemo mDemo ["other"] [("x", 1)] true
    (by decide) (by decide)

/-- C10 (confirmed): when no snapshot has been accepted yet, the first
snapshot received is stored without dispatching any action or status
write, and the rest of the run proceeds exactly as if it had started
with that snapshot accepted: reconciliation only acts on snapshots
received while a prior one is held. -/
theorem c10_first_snapshot_stored_without_actions (a : App) (snaps : List App) :
    pods_watcher_step none a = ([], some a)
    ∧ pods_watcher_run none (a :: snaps) = pods_watcher_run (some a) snaps := by
  constructor
  · rfl
  · simp [pods_watcher_run, pods_watcher_step]

/-- Every event of the dataset add/update phase is a dataset add/update
event. -/
theorem reconcileDatasetAdds_kinds (current new : App) :
    ∀ e ∈ reconcileDatasetAdds current new, isDatasetAddOrUpdate e = true := by
  intro e he
  rw [reconcileDatasetAdds, List.mem_flatMap] at he
  obtain ⟨ds, -, he⟩ := he
  rcases hfind : current.datasets.find? (fun d => d.name == ds.name)
      with _ | cur <;> rw [hfind, datasetAddAction] at he
  · simp only [List.mem_cons, List.mem_singleton, List.not_mem_nil,
      or_false] at he
    rcases he with he | he <;> subst he <;> rfl
  · split at he
    · simp only [List.mem_singleton] at he
      subst he; rfl
    · simp at he

/-- Every event of the model add/update phase is a model add/update
event. -/
theorem reconcileModelAdds_kinds (current new : App) :
    ∀ e ∈ reconcileModelAdds current new, isModelAddOrUpdate e = true := by
  intro e he
  rw [reconcileModelAdds, List.mem_flatMap] at he
  obtain ⟨m, -, he⟩ := he
  rcases hfind : current.models.find? (fun c => c.name == m.name)
      with _ | cur <;> rw [hfind, modelAddAction] at he
  · simp only [List.mem_cons, List.mem_singleton, List.not_mem_nil,
      or_false] at he
    rcases he with he | he <;> subst he <;> rfl
  · split at he
    · simp only [List.mem_singleton] at he
      subst he; rfl
    · simp at he

/-- Every event of the model removal phase is a model removal event. -/
theorem reconcileModelRemovals_kinds (current new : App) :
    ∀ e ∈ reconcileModelRemovals current new, isModelRemoval e = true := by
  intro e he
  rw [reconcileModelRemovals, List.mem_flatMap] at he
  obtain ⟨m, -, he⟩ := he
  split at he
  · simp at he
  · simp only [List.mem_cons, List.mem_singleton, List.not_mem_nil,
      or_false] at he
    rcases he with he | he <;> subst he <;> rfl

/-- Every event of the dataset removal phase is a dataset removal
event. -/
theorem reconcileDatasetRemovals_kinds (current new : App) :
    ∀ e ∈ reconcileDatasetRemovals current new, isDatasetRemoval e = true := by
  intro e he
  rw [reconcileDatasetRemovals, List.mem_flatMap] at he
  obtain ⟨ds, -, he⟩ := he
  split at he
  · simp at he
  · simp only [List.mem_cons, List.mem_singleton, List.not_mem_nil,
      or_false] at he
    rcases he with he | he <;> subst he <;> rfl

/-- A dataset present in the accepted snapshot under the same name with
an equal value triggers neither a load nor an update dispatch. -/
theorem reconcileDatasetAdds_equal_no_dispatch (current new : App)
    (d : Dataset)
    (h : current.datasets.find? (fun c => c.name == d.name) = some d) :
    ReconcileEvent.dispatchLoadDataset d ∉ reconcileDatasetAdds current new
    ∧ ReconcileEvent.dispatchUpdateDataset d ∉ reconcileDatasetAdds current new := by
  constructor
  · intro hmem
    rw [reconcileDatasetAdds, List.mem_flatMap] at hmem
    obtain ⟨ds, -, hmem⟩ := hmem
    rcases hfind : current.datasets.find? (fun c => c.name == ds.name)
        with _ | cur <;> rw [hfind, datasetAddAction] at hmem
    · simp only [List.mem_cons, List.mem_singleton, List.not_mem_nil,
        or_false] at hmem
      rcases hmem with hmem | hmem
      · exact ReconcileEvent.noConfusion hmem
      · injection hmem with hde
        subst hde
        rw [h] at hfind
        exact Option.noConfusion hfind
    · split at hmem
      · simp only [List.mem_singleton] at hmem
        exact ReconcileEvent.noConfusion hmem
      · simp at hmem
  · intro hmem
    rw [reconcileDatasetAdds, List.mem_flatMap] at hmem
    obtain ⟨ds, -, hmem⟩ := hmem
    rcases hfind : current.datasets.find? (fun c => c.name == ds.name)
        with _ | cur <;> rw [hfind, datasetAddAction] at hmem
    · simp only [List.mem_cons, List.mem_singleton, List.not_mem_nil,
        or_false] at hmem
      rcases hmem with hmem | hmem
      · exact ReconcileEvent.noConfusion hmem
      · exact ReconcileEvent.noConfusion hmem
    · split at hmem
      · rename_i hcond
        simp only [List.mem_singleton] at hmem
        injection hmem with hde
        subst hde
        rw [h] at hfind
        injection hfind with hcd
        subst hcd
        simp at hcond
      · simp at hmem

/-- A model present in the accepted snapshot under the same name with an
equal value triggers neither a load nor an update dispatch. -/
theorem reconcileModelAdds_equal_no_dispatch (current new : App)
    (mo : SpicepodModel)
    (h : current.models.find? (fun c => c.name == mo.name) = some mo) :
    ReconcileEvent.dispatchLoadModel mo ∉ reconcileModelAdds current new
    ∧ ReconcileEvent.dispatchUpdateModel mo ∉ reconcileModelAdds current new := by
  constructor
  · intro hmem
    rw [reconcileModelAdds, List.mem_flatMap] at hmem
    obtain ⟨m, -, hmem⟩ := hmem
    rcases hfind : current.models.find? (fun c => c.name == m.name)
        with _ | cur <;> rw [hfind, modelAddAction] at hmem
    · simp only [List.mem_cons, List.mem_singleton, List.not_mem_nil,
        or_false] at hmem
      rcases hmem with hmem | hmem
      · exact ReconcileEvent.noConfusion hmem
      · injection hmem with hde
        subst hde
        rw [h] at hfind
        exact Option.noConfusion hfind
    · split at hmem
      · simp only [List.mem_singleton] at hmem
        exact ReconcileEvent.noConfusion hmem
      · simp at hmem
  · intro hmem
    rw [reconcileModelAdds, List.mem_flatMap] at hmem
    obtain ⟨m, -, hmem⟩ := hmem
    rcases hfind : current.models.find? (fun c => c.name == m.name)
        with _ | cur <;> rw [hfind, modelAddAction] at hmem
    · simp only [List.mem_cons, List.mem_singleton, List.not_mem_nil,
        or_false] at hmem
      rcases hmem with hmem | hmem
      · exact ReconcileEvent.noConfusion hmem
      · exact ReconcileEvent.noConfusion hmem
    · split at hmem
      · rename_i hcond
        simp only [List.mem_singleton] at hmem
        injection hmem with hde
        subst hde
        rw [h] at hfind
        injection hfind with hcd
        subst hcd
        simp at hcond
      · simp at hmem

/-- The reconciliation body on an unequal snapshot, unfolded. -/
theorem reconcile_step_ne (current new : App) (h : ¬ current = new) :
    reconcile_step current new
      = (reconcileDatasetAdds current new ++ reconcileModelAdds current new
           ++ reconcileModelRemovals current new
           ++ reconcileDatasetRemovals current new
           ++ [ReconcileEvent.commitSnapshot], new) := by
  simp [reconcile_step, h]

/-- C9 (confirmed): for an accepted snapshot and an unequal new
snapshot, the reconciler's event list decomposes into four phases in
order — dataset adds/updates, model adds/updates, model removals,
dataset removals — followed by the replacement of the accepted snapshot
as the very last step; the accepted value becomes the new snapshot; and
an entity present in both snapshots with an equal value produces no
load or update dispatch. -/
theorem c9_reconcile_dispatch_order (current new : App)
    (h : ¬ current = new) :
    (∃ A B C D : List ReconcileEvent,
       (reconcile_step current new).1
         = A ++ B ++ C ++ D ++ [ReconcileEvent.commitSnapshot]
       ∧ (∀ e ∈ A, isDatasetAddOrUpdate e = true)
       ∧ (∀ e ∈ B, isModelAddOrUpdate e = true)
       ∧ (∀ e ∈ C, isModelRemoval e = true)
       ∧ (∀ e ∈ D, isDatasetRemoval e = true))
    ∧ (reconcile_step current new).2 = new
    ∧ (∀ d : Dataset,
         current.datasets.find? (fun c => c.name == d.name) = some d →
         ReconcileEvent.dispatchLoadDataset d ∉ (reconcile_step current new).1
         ∧ ReconcileEvent.dispatchUpdateDataset d
             ∉ (reconcile_step current new).1)
    ∧ (∀ mo : SpicepodModel,
         current.models.find? (fun c => c.name == mo.name) = some mo →
         ReconcileEvent.dispatchLoadModel mo ∉ (reconcile_step current new).1
         ∧ ReconcileEvent.dispatchUpdateModel mo
             ∉ (reconcile_step current new).1) := by
  rw [reconcile_step_ne current new h]
  refine ⟨⟨reconcileDatasetAdds current new, reconcileModelAdds current new,
      reconcileModelRemovals current new, reconcileDatasetRemovals current new,
      rfl, reconcileDatasetAdds_kinds current new,
      reconcileModelAdds_kinds current new,
      reconcileModelRemovals_kinds current new,
      reconcileDatasetRemovals_kinds current new⟩, rfl, ?_, ?_⟩
  · intro d hd
    have hA := reconcileDatasetAdds_equal_no_dispatch current new d hd
    constructor <;> intro hmem <;>
      simp only [List.mem_append, List.mem_singleton] at hmem <;>
      rcases hmem with (((hm | hm) | hm) | hm) | hm
    · exact hA.1 hm
    · have := reconcileModelAdds_kinds current new _ hm
      simp [isModelAddOrUpdate] at this
    · have := reconcileModelRemovals_kinds current new _ hm
      simp [isModelRemoval] at this
    · have := reconcileDatasetRemovals_kinds current new _ hm
      simp [isDatasetRemoval] at this
    · exact ReconcileEvent.noConfusion hm
    · exact hA.2 hm
    · have := reconcileModelAdds_kinds current new _ hm
      simp [isModelAddOrUpdate] at this
    · have := reconcileModelRemovals_kinds current new _ hm
      simp [isModelRemoval] at this
    · have := reconcileDatasetRemovals_kinds current new _ hm
      simp [isDatasetRemoval] at this
    · exact ReconcileEvent.noConfusion hm
  · intro mo hmo
    have hB := reconcileModelAdds_equal_no_dispatch current new mo hmo
    constructor <;> intro hmem <;>
      simp only [List.mem_append, List.mem_singleton] at hmem <;>
      rcases hmem with (((hm | hm) | hm) | hm) | hm
    · have := reconcileDatasetAdds_kinds current new _ hm
      simp [isDatasetAddOrUpdate] at this
    · exact hB.1 hm
    · have := reconcileModelRemovals_kinds current new _ hm
      simp [isModelRemoval] at this
    · have := reconcileDatasetRemovals_kinds current new _ hm
      simp [isDatasetRemoval] at this
    · exact ReconcileEvent.noConfusion hm
    · have := reconcileDatasetAdds_kinds current new _ hm
      simp [isDatasetAddOrUpdate] at this
    · exact hB.2 hm
    · have := reconcileModelRemovals_kinds current new _ hm
      simp [isModelRemoval] at this
    · have := reconcileDatasetRemovals_kinds current new _ hm
      simp [isDatasetRemoval] at this
    · exact ReconcileEvent.noConfusion hm

/-- C9 (witness): the theorem applied to the concrete snapshots
`appCur`/`appNew` (one updated dataset, one unchanged dataset, one
removed model): the accepted snapshot becomes the new one and the
unchanged dataset `dsDemo` triggers no dispatch. -/
theorem c9_reconcile_dispatch_order_witness :
    (reconcile_step appCur appNew).2 = appNew
    ∧ ReconcileEvent.dispatchLoadDataset dsDemo
        ∉ (reconcile_step appCur appNew).1
    ∧ ReconcileEvent.dispatchUpdateDataset dsDemo
        ∉ (reconcile_step appCur appNew).1 :=
  ⟨(c9_reconcile_dispatch_order appCur appNew (by decide)).2.1,
   ((c9_reconcile_dispatch_order appCur appNew (by decide)).2.2.1 dsDemo
       (by decide)).1,
   ((c9_reconcile_dispatch_order appCur appNew (by decide)).2.2.1 dsDemo
       (by decide)).2⟩

end SpiceRuntime
